import Mathlib

/-!
# Verification of the stp258-standard multi-currency ledger pallet

Shallow embedding of `src/lib.rs` (the `stp258-standard` pallet): the
ledger dispatch layer (`Stp258Currency`/`Stp258CurrencyExtended`/
`Stp258CurrencyLockable`/`Stp258CurrencyReservable` impls for `Pallet`),
the `Stp258AssetAdapter`, the `SerpMarket` impl, the `SerpTesAdapter`
stabilization arithmetic, and `MergeAccount::merge_account`.

Balances are `Nat` (the pallet's `Balance` is an unsigned checked-arithmetic
type per the spec's data model: "all arithmetic checked (no silent
overflow/underflow)"); signed `Amount`s are `Int`.  Fallible operations
return `Except Err`; a checked-arithmetic failure (underflow / division by
zero) in the pseudo-coded `SerpTesAdapter` is modelled explicitly.

The external collaborators (the single-currency native primitive behind
`T::Stp258Native`, i.e. `frame_support::traits::Currency` and friends, and
the external multi-currency backend behind `T::Stp258Currency`) are not part
of this repository; they are modelled from the spec (§4.2, §6) as a
per-currency `Book` of accounts, each definition marked
`Modelled from the spec`.
-/

namespace Stp258

abbrev AccountId := Nat
abbrev CurrencyId := Nat
abbrev Balance := Nat
abbrev Amount := Int
abbrev LockId := Nat

/-- Errors surfaced by this pallet (`Error<T>` in `src/lib.rs`), the
stabilization engine's `ZeroPrice`, plus opaque external errors
(primitive/backend failures propagate untranslated through the pallet,
so their identity is an abstract code). -/
inductive Err
  | amountIntoBalanceFailed
  | balanceTooLow
  | zeroPrice
  | external (code : Nat)
deriving Repr, DecidableEq

/-- Domain events (`Event<T>` in `src/lib.rs`). -/
inductive Event
  | transferred (c : CurrencyId) (source dest : AccountId) (amount : Balance)
  | balanceUpdated (c : CurrencyId) (who : AccountId) (amount : Amount)
  | deposited (c : CurrencyId) (who : AccountId) (amount : Balance)
  | withdrawn (c : CurrencyId) (who : AccountId) (amount : Balance)
  | serpedDownSupply (c : CurrencyId) (contractBy : Balance)
  | serpedUpSupply (c : CurrencyId) (expandBy : Balance)
deriving Repr, DecidableEq

/-- The two destinations of `repatriate_reserved` (`BalanceStatus`). -/
inductive Bstatus
  | free
  | reserved
deriving Repr, DecidableEq

/-- Per-account record: free balance, reserved balance and named locks
(spec §3: each lock independently records a held amount). -/
structure Account where
  free : Balance
  reserved : Balance
  locks : List (LockId × Balance)
deriving Repr, DecidableEq

/-- The enforced hold of an account: the maximum across active locks
(spec §3: "the enforced hold is the maximum across active locks, not
their sum"). -/
def frozen (a : Account) : Balance :=
  a.locks.foldr (fun p m => max p.2 m) 0

/-- The effectively locked balance: the part of the actually held funds
covered by locks (a stale lock on an empty account locks nothing). -/
def lockedBalance (a : Account) : Balance :=
  min (frozen a) a.free

/-- A single-currency book: accounts plus total issuance.  The native
primitive manages one such book; the external backend one per currency. -/
structure Book where
  accounts : AccountId → Account
  issuance : Balance

/-- Update one account of a book's account store. -/
def updAcc (who : AccountId) (f : Account → Account) (g : AccountId → Account) :
    AccountId → Account :=
  fun a => if a = who then f (g a) else g a

/-! ## The single-currency primitive, modelled from the spec

The native primitive (`frame_support::traits::Currency` /
`LockableCurrency` / `ReservableCurrency`) and the per-currency behaviour
of the external backend are outside this repository.  Each `bk*` operation
below is `Modelled from the spec` (§3 invariants, §4.2 and §6 interface
boundary): balances never go negative, zero-amount and self-targeted
operations are no-ops, transfers and withdrawals respect the enforced
hold, slashes return the uncovered gap. -/

/-- Modelled from the spec: free balance read of the missing primitive. -/
def bkFree (who : AccountId) (bk : Book) : Balance :=
  (bk.accounts who).free

/-- Modelled from the spec: reserved balance read of the missing primitive. -/
def bkReserved (who : AccountId) (bk : Book) : Balance :=
  (bk.accounts who).reserved

/-- Modelled from the spec: total balance (free + reserved) of the missing
primitive. -/
def bkTotal (who : AccountId) (bk : Book) : Balance :=
  (bk.accounts who).free + (bk.accounts who).reserved

/-- Modelled from the spec: the missing primitive's transfer.  No-op on a
zero amount or a self-target; otherwise requires the debited free balance
to cover the amount and to stay at or above the enforced hold, and moves
the amount between the two free balances. -/
def bkTransfer (source dest : AccountId) (n : Balance) (bk : Book) :
    Except Err Book :=
  if n = 0 ∨ source = dest then .ok bk
  else
    let a := bk.accounts source
    let b := bk.accounts dest
    if n ≤ a.free ∧ frozen a ≤ a.free - n then
      .ok { bk with accounts := fun z =>
              if z = source then { a with free := a.free - n }
              else if z = dest then { b with free := b.free + n }
              else bk.accounts z }
    else .error (.external 1)

/-- Modelled from the spec: the missing primitive's unconditional credit
(`deposit_creating`): never fails, raises issuance. -/
def bkDeposit (who : AccountId) (n : Balance) (bk : Book) : Book :=
  if n = 0 then bk
  else { accounts := updAcc who (fun a => { a with free := a.free + n }) bk.accounts,
         issuance := bk.issuance + n }

/-- Modelled from the spec: the missing primitive's withdraw — a debit that
permits full draining, requires the free balance to cover the amount and to
stay at or above the enforced hold, and lowers issuance. -/
def bkWithdraw (who : AccountId) (n : Balance) (bk : Book) : Except Err Book :=
  if n = 0 then .ok bk
  else
    let a := bk.accounts who
    if n ≤ a.free ∧ frozen a ≤ a.free - n then
      .ok { accounts := updAcc who (fun x => { x with free := x.free - n }) bk.accounts,
            issuance := bk.issuance - n }
    else .error (.external 1)

/-- Modelled from the spec: the missing primitive's slash — best-effort
debit of free then reserved balance, returning the uncovered gap; never
fails. -/
def bkSlash (who : AccountId) (n : Balance) (bk : Book) : Book × Balance :=
  let a := bk.accounts who
  let fromFree := min n a.free
  let fromRes := min (n - fromFree) a.reserved
  ({ accounts := updAcc who
        (fun x => { x with free := x.free - fromFree, reserved := x.reserved - fromRes })
        bk.accounts,
     issuance := bk.issuance - (fromFree + fromRes) },
   n - fromFree - fromRes)

/-- Modelled from the spec: the missing primitive's slash feasibility
check — the free balance covers the amount. -/
def bkCanSlash (who : AccountId) (n : Balance) (bk : Book) : Bool :=
  n ≤ (bk.accounts who).free

/-- Modelled from the spec: the missing primitive's residual withdrawal
check, given the prospective new free balance: the new balance must not
dip below the enforced hold (an existence/liquidity-style check, whose
failure is an opaque external error). -/
def bkEnsureNewBalance (who : AccountId) (newBalance : Balance) (bk : Book) :
    Except Err Unit :=
  if frozen (bk.accounts who) ≤ newBalance then .ok () else .error (.external 2)

/-- Modelled from the spec: the backend's own withdrawal feasibility
check. -/
def bkCanWithdraw (who : AccountId) (n : Balance) (bk : Book) :
    Except Err Unit :=
  let a := bk.accounts who
  if n ≤ a.free ∧ frozen a ≤ a.free - n then .ok () else .error (.external 1)

/-- Modelled from the spec: the missing lock primitive's `set_lock` —
replaces the lock of the same identifier (a zero amount clears it); never
fails, even when the amount exceeds the balance. -/
def bkSetLock (lid : LockId) (who : AccountId) (n : Balance) (bk : Book) : Book :=
  let f : Account → Account := fun a =>
    let newLocks := (if n = 0 then [] else [(lid, n)]) ++ a.locks.filter (fun p => p.1 ≠ lid)
    { a with locks := newLocks }
  { bk with accounts := updAcc who f bk.accounts }

/-- Modelled from the spec: the missing lock primitive's `extend_lock` —
the hold of the named lock can only grow (maximum of old and new amount);
never fails. -/
def bkExtendLock (lid : LockId) (who : AccountId) (n : Balance) (bk : Book) : Book :=
  let f : Account → Account := fun a =>
    let newLocks :=
      if a.locks.any (fun p => p.1 = lid) then
        a.locks.map (fun p => if p.1 = lid then (lid, max p.2 n) else p)
      else if n = 0 then a.locks else (lid, n) :: a.locks
    { a with locks := newLocks }
  { bk with accounts := updAcc who f bk.accounts }

/-- Modelled from the spec: the missing lock primitive's `remove_lock`;
never fails. -/
def bkRemoveLock (lid : LockId) (who : AccountId) (bk : Book) : Book :=
  let f : Account → Account := fun a => { a with locks := a.locks.filter (fun p => p.1 ≠ lid) }
  { bk with accounts := updAcc who f bk.accounts }

/-- Modelled from the spec: the missing reserve primitive's feasibility
check. -/
def bkCanReserve (who : AccountId) (v : Balance) (bk : Book) : Bool :=
  v ≤ (bk.accounts who).free

/-- Modelled from the spec: the missing reserve primitive's `reserve` —
moves the value from free to reserved, failing when free does not cover
it. -/
def bkReserve (who : AccountId) (v : Balance) (bk : Book) : Except Err Book :=
  let a := bk.accounts who
  let f : Account → Account := fun x => { x with free := x.free - v, reserved := x.reserved + v }
  if v ≤ a.free then .ok { bk with accounts := updAcc who f bk.accounts }
  else .error (.external 1)

/-- Modelled from the spec: the missing reserve primitive's `unreserve` —
moves back as much of the value as is actually reserved and returns the
remainder; never fails. -/
def bkUnreserve (who : AccountId) (v : Balance) (bk : Book) : Book × Balance :=
  let a := bk.accounts who
  let m := min v a.reserved
  let f : Account → Account := fun x => { x with free := x.free + m, reserved := x.reserved - m }
  ({ bk with accounts := updAcc who f bk.accounts }, v - m)

/-- Modelled from the spec: the missing reserve primitive's
`slash_reserved` — debits up to the value from the reserved balance,
lowering issuance, and returns the gap; never fails. -/
def bkSlashReserved (who : AccountId) (v : Balance) (bk : Book) : Book × Balance :=
  let a := bk.accounts who
  let m := min v a.reserved
  ({ accounts := updAcc who (fun x => { x with reserved := x.reserved - m }) bk.accounts,
     issuance := bk.issuance - m },
   v - m)

/-- Modelled from the spec: the missing reserve primitive's
`repatriate_reserved` — moves as much of the value as is reserved from
`slashed` into `beneficiary`'s free or reserved balance and returns the
shortfall rather than failing outright. -/
def bkRepatriate (slashed beneficiary : AccountId) (v : Balance) (status : Bstatus)
    (bk : Book) : Except Err (Book × Balance) :=
  let a := bk.accounts slashed
  let actual := min v a.reserved
  if slashed = beneficiary then
    match status with
    | .free => .ok (bkUnreserve slashed v bk)
    | .reserved => .ok (bk, v - actual)
  else
    let b := bk.accounts beneficiary
    .ok ({ bk with accounts := fun z =>
             if z = slashed then { a with reserved := a.reserved - actual }
             else if z = beneficiary then
               match status with
               | .free => { b with free := b.free + actual }
               | .reserved => { b with reserved := b.reserved + actual }
             else bk.accounts z },
          v - actual)

/-! ## The Asset Adapter (`Stp258AssetAdapter`, src lines 635–787)

Lifts the plain single-currency primitive (the `bk*` operations above)
into the `Stp258Asset*` capability set.  These definitions translate the
Rust impl blocks directly. -/

/-- Embeds `Stp258AssetAdapter::ensure_can_withdraw` (src lines 664–670):
`free_balance(who).checked_sub(amount).ok_or(BalanceTooLow)?`, then
delegate the residual check on the new balance to the primitive. -/
def aEnsureCanWithdraw (who : AccountId) (amount : Balance) (bk : Book) :
    Except Err Unit :=
  if bkFree who bk < amount then .error .balanceTooLow
  else bkEnsureNewBalance who (bkFree who bk - amount) bk

/-- Embeds `Stp258AssetAdapter::transfer` (src lines 672–674): delegates to the
primitive with `ExistenceRequirement::AllowDeath`. -/
def aTransfer (source dest : AccountId) (amount : Balance) (bk : Book) :
    Except Err Book :=
  bkTransfer source dest amount bk

/-- Embeds `Stp258AssetAdapter::deposit` (src lines 676–679): `deposit_creating`
with the imbalance dropped; always `Ok`. -/
def aDeposit (who : AccountId) (amount : Balance) (bk : Book) : Except Err Book :=
  .ok (bkDeposit who amount bk)

/-- Embeds `Stp258AssetAdapter::withdraw` (src lines 681–683): primitive withdraw
with `AllowDeath`, failures untranslated. -/
def aWithdraw (who : AccountId) (amount : Balance) (bk : Book) : Except Err Book :=
  bkWithdraw who amount bk

/-- Embeds `Stp258AssetAdapter::slash` (src lines 689–692): primitive slash,
returning the gap. -/
def aSlash (who : AccountId) (amount : Balance) (bk : Book) : Book × Balance :=
  bkSlash who amount bk

/-- Embeds `Stp258AssetAdapter::update_balance` (src lines 713–723): converts the
signed amount's magnitude into a `Balance` (failing with
`AmountIntoBalanceFailed` when it does not fit — the balance domain bound
is the parameter `bmax`), then deposits when positive and withdraws
otherwise. -/
def aUpdateBalance (bmax : Nat) (who : AccountId) (byAmount : Amount) (bk : Book) :
    Except Err Book :=
  if byAmount.natAbs ≤ bmax then
    if 0 < byAmount then aDeposit who byAmount.natAbs bk
    else aWithdraw who byAmount.natAbs bk
  else .error .amountIntoBalanceFailed

/-- Embeds `Stp258AssetAdapter::set_lock` (src lines 735–738): primitive
`set_lock`, then `Ok(())`. -/
def aSetLock (lid : LockId) (who : AccountId) (amount : Balance) (bk : Book) :
    Except Err Book :=
  .ok (bkSetLock lid who amount bk)

/-- Embeds `Stp258AssetAdapter::extend_lock` (src lines 740–743): primitive
`extend_lock`, then `Ok(())`. -/
def aExtendLock (lid : LockId) (who : AccountId) (amount : Balance) (bk : Book) :
    Except Err Book :=
  .ok (bkExtendLock lid who amount bk)

/-- Embeds `Stp258AssetAdapter::remove_lock` (src lines 745–748): primitive
`remove_lock`, then `Ok(())`. -/
def aRemoveLock (lid : LockId) (who : AccountId) (bk : Book) : Except Err Book :=
  .ok (bkRemoveLock lid who bk)

/-! ## The ledger state and the dispatch layer (`Pallet`)

`State` carries the Adapter-backed native book, the external backend's
per-currency books, and the emitted event log.  Every dispatch operation
(src lines 288–507) routes on `currency_id == T::GetStp258NativeId::get()`
(the `nid` parameter below). -/

/-- The whole ledger: native book, backend books, event log. -/
structure State where
  native : Book
  backend : CurrencyId → Book
  events : List Event

/-- Replace one currency's book in the backend store. -/
def updBk (bk : CurrencyId → Book) (c : CurrencyId) (book : Book) : CurrencyId → Book :=
  fun z => if z = c then book else bk z

/-- Embeds `Stp258Currency::free_balance` for `Pallet` (src lines 324–330). -/
def free_balance (nid c : CurrencyId) (who : AccountId) (s : State) : Balance :=
  if c = nid then bkFree who s.native else bkFree who (s.backend c)

/-- Embeds `Stp258Currency::total_balance` for `Pallet` (src lines 316–322). -/
def total_balance (nid c : CurrencyId) (who : AccountId) (s : State) : Balance :=
  if c = nid then bkTotal who s.native else bkTotal who (s.backend c)

/-- Embeds `Stp258Currency::total_issuance` for `Pallet` (src lines 308–314). -/
def total_issuance (nid c : CurrencyId) (s : State) : Balance :=
  if c = nid then s.native.issuance else (s.backend c).issuance

/-- Embeds `Stp258Currency::ensure_can_withdraw` for `Pallet` (src lines
332–338): native route through the Adapter, backend route through the
backend's own check. -/
def ensure_can_withdraw (nid c : CurrencyId) (who : AccountId) (amount : Balance)
    (s : State) : Except Err Unit :=
  if c = nid then aEnsureCanWithdraw who amount s.native
  else bkCanWithdraw who amount (s.backend c)

/-- Embeds `Stp258Currency::transfer` for `Pallet` (src lines 340–356): no-op on
zero amount or self-target, otherwise route, then emit `Transferred`. -/
def transfer (nid c : CurrencyId) (source dest : AccountId) (amount : Balance)
    (s : State) : Except Err State :=
  if amount = 0 ∨ source = dest then .ok s
  else if c = nid then
    match aTransfer source dest amount s.native with
    | .error e => .error e
    | .ok nb =>
        .ok { s with native := nb,
                     events := s.events ++ [.transferred c source dest amount] }
  else
    match bkTransfer source dest amount (s.backend c) with
    | .error e => .error e
    | .ok book =>
        .ok { s with backend := updBk s.backend c book,
                     events := s.events ++ [.transferred c source dest amount] }

/-- Embeds `Stp258Currency::deposit` for `Pallet` (src lines 358–369): no-op on
zero amount, otherwise route, then emit `Deposited`. -/
def deposit (nid c : CurrencyId) (who : AccountId) (amount : Balance) (s : State) :
    Except Err State :=
  if amount = 0 then .ok s
  else if c = nid then
    match aDeposit who amount s.native with
    | .error e => .error e
    | .ok nb =>
        .ok { s with native := nb, events := s.events ++ [.deposited c who amount] }
  else
    .ok { s with backend := updBk s.backend c (bkDeposit who amount (s.backend c)),
                 events := s.events ++ [.deposited c who amount] }

/-- Embeds `Stp258Currency::withdraw` for `Pallet` (src lines 371–382): no-op on
zero amount, otherwise route, then emit `Withdrawn`. -/
def withdraw (nid c : CurrencyId) (who : AccountId) (amount : Balance) (s : State) :
    Except Err State :=
  if amount = 0 then .ok s
  else if c = nid then
    match aWithdraw who amount s.native with
    | .error e => .error e
    | .ok nb =>
        .ok { s with native := nb, events := s.events ++ [.withdrawn c who amount] }
  else
    match bkWithdraw who amount (s.backend c) with
    | .error e => .error e
    | .ok book =>
        .ok { s with backend := updBk s.backend c book,
                     events := s.events ++ [.withdrawn c who amount] }

/-- Embeds `Stp258Currency::can_slash` for `Pallet` (src lines 384–390). -/
def can_slash (nid c : CurrencyId) (who : AccountId) (amount : Balance) (s : State) :
    Bool :=
  if c = nid then bkCanSlash who amount s.native
  else bkCanSlash who amount (s.backend c)

/-- Embeds `Stp258Currency::slash` for `Pallet` (src lines 392–398): routed
best-effort debit returning the gap; no event. -/
def slash (nid c : CurrencyId) (who : AccountId) (amount : Balance) (s : State) :
    State × Balance :=
  if c = nid then
    let (nb, gap) := aSlash who amount s.native
    ({ s with native := nb }, gap)
  else
    let (book, gap) := bkSlash who amount (s.backend c)
    ({ s with backend := updBk s.backend c book }, gap)

/-- Modelled from the spec: the external backend's own signed update
(the `Stp258CurrencyExtended` backend primitive is not in this
repository); mirrors §4.2's conversion-then-deposit/withdraw contract. -/
def bkUpdateBalance (bmax : Nat) (who : AccountId) (byAmount : Amount) (bk : Book) :
    Except Err Book :=
  if byAmount.natAbs ≤ bmax then
    if 0 < byAmount then .ok (bkDeposit who byAmount.natAbs bk)
    else bkWithdraw who byAmount.natAbs bk
  else .error .amountIntoBalanceFailed

/-- Embeds `Stp258CurrencyExtended::update_balance` for `Pallet` (src lines
404–412): routed signed update, then emit `BalanceUpdated` (carrying the
signed delta) — note there is no zero-amount filter here. -/
def update_balance (nid : CurrencyId) (bmax : Nat) (c : CurrencyId) (who : AccountId)
    (byAmount : Amount) (s : State) : Except Err State :=
  let routed : Except Err State :=
    if c = nid then
      match aUpdateBalance bmax who byAmount s.native with
      | .error e => .error e
      | .ok nb => .ok { s with native := nb }
    else
      match bkUpdateBalance bmax who byAmount (s.backend c) with
      | .error e => .error e
      | .ok book => .ok { s with backend := updBk s.backend c book }
  match routed with
  | .error e => .error e
  | .ok s2 => .ok { s2 with events := s2.events ++ [.balanceUpdated c who byAmount] }

/-- Embeds `Stp258CurrencyLockable::set_lock` for `Pallet` (src lines 418–429). -/
def set_lock (nid : CurrencyId) (lid : LockId) (c : CurrencyId) (who : AccountId)
    (amount : Balance) (s : State) : Except Err State :=
  if c = nid then
    match aSetLock lid who amount s.native with
    | .error e => .error e
    | .ok nb => .ok { s with native := nb }
  else
    .ok { s with backend := updBk s.backend c (bkSetLock lid who amount (s.backend c)) }

/-- Embeds `Stp258CurrencyLockable::extend_lock` for `Pallet` (src lines 431–442). -/
def extend_lock (nid : CurrencyId) (lid : LockId) (c : CurrencyId) (who : AccountId)
    (amount : Balance) (s : State) : Except Err State :=
  if c = nid then
    match aExtendLock lid who amount s.native with
    | .error e => .error e
    | .ok nb => .ok { s with native := nb }
  else
    .ok { s with backend := updBk s.backend c (bkExtendLock lid who amount (s.backend c)) }

/-- Embeds `Stp258CurrencyLockable::remove_lock` for `Pallet` (src lines 444–450). -/
def remove_lock (nid : CurrencyId) (lid : LockId) (c : CurrencyId) (who : AccountId)
    (s : State) : Except Err State :=
  if c = nid then
    match aRemoveLock lid who s.native with
    | .error e => .error e
    | .ok nb => .ok { s with native := nb }
  else
    .ok { s with backend := updBk s.backend c (bkRemoveLock lid who (s.backend c)) }

/-- Embeds `Stp258CurrencyReservable::can_reserve` for `Pallet` (src lines 454–460). -/
def can_reserve (nid c : CurrencyId) (who : AccountId) (v : Balance) (s : State) :
    Bool :=
  if c = nid then bkCanReserve who v s.native else bkCanReserve who v (s.backend c)

/-- Embeds `Stp258CurrencyReservable::slash_reserved` for `Pallet` (src lines 462–468). -/
def slash_reserved (nid c : CurrencyId) (who : AccountId) (v : Balance) (s : State) :
    State × Balance :=
  if c = nid then
    let (nb, gap) := bkSlashReserved who v s.native
    ({ s with native := nb }, gap)
  else
    let (book, gap) := bkSlashReserved who v (s.backend c)
    ({ s with backend := updBk s.backend c book }, gap)

/-- Embeds `Stp258CurrencyReservable::reserved_balance` for `Pallet` (src lines 470–476). -/
def reserved_balance (nid c : CurrencyId) (who : AccountId) (s : State) : Balance :=
  if c = nid then bkReserved who s.native else bkReserved who (s.backend c)

/-- Embeds `Stp258CurrencyReservable::reserve` for `Pallet` (src lines 478–484). -/
def reserve (nid c : CurrencyId) (who : AccountId) (v : Balance) (s : State) :
    Except Err State :=
  if c = nid then
    match bkReserve who v s.native with
    | .error e => .error e
    | .ok nb => .ok { s with native := nb }
  else
    match bkReserve who v (s.backend c) with
    | .error e => .error e
    | .ok book => .ok { s with backend := updBk s.backend c book }

/-- Embeds `Stp258CurrencyReservable::unreserve` for `Pallet` (src lines 486–492). -/
def unreserve (nid c : CurrencyId) (who : AccountId) (v : Balance) (s : State) :
    State × Balance :=
  if c = nid then
    let (nb, rest) := bkUnreserve who v s.native
    ({ s with native := nb }, rest)
  else
    let (book, rest) := bkUnreserve who v (s.backend c)
    ({ s with backend := updBk s.backend c book }, rest)

/-- Embeds `Stp258CurrencyReservable::repatriate_reserved` for `Pallet` (src
lines 494–506). -/
def repatriate_reserved (nid c : CurrencyId) (slashed beneficiary : AccountId)
    (v : Balance) (status : Bstatus) (s : State) : Except Err (State × Balance) :=
  if c = nid then
    match bkRepatriate slashed beneficiary v status s.native with
    | .error e => .error e
    | .ok (nb, rest) => .ok ({ s with native := nb }, rest)
  else
    match bkRepatriate slashed beneficiary v status (s.backend c) with
    | .error e => .error e
    | .ok (book, rest) => .ok ({ s with backend := updBk s.backend c book }, rest)

/-- The `transfer_native_currency` dispatchable (src lines 135–146):
native-routed transfer through the Adapter, then an unconditional
`Transferred` event. -/
def transfer_native_currency (nid : CurrencyId) (source dest : AccountId)
    (amount : Balance) (s : State) : Except Err State :=
  match aTransfer source dest amount s.native with
  | .error e => .error e
  | .ok nb =>
      .ok { s with native := nb,
                   events := s.events ++ [.transferred nid source dest amount] }

/-! ## SerpMarket settlement (`impl SerpMarket for Pallet`, src lines 251–286)

The backend's mint/burn primitives (`T::Stp258Currency::expand_supply` /
`contract_supply`) are external; the dispatch takes them as function
parameters over the backend store. -/

/-- The type of the external backend's mint/burn primitive: native id,
stable id, amount, quoted pay, serpers account, backend store. -/
def SerpPrim : Type :=
  CurrencyId → CurrencyId → Balance → Balance → AccountId →
    (CurrencyId → Book) → Except Err (CurrencyId → Book)

/-- Embeds `Pallet::expand_supply` (src lines 253–268): no-op when `expand_by`
is zero or the stable id equals the native id; the backend mint runs only
under the `native_currency_id == T::GetSerpNativeId::get()` guard; the
`SerpedUpSupply` event is emitted afterwards in either case. -/
def expand_supply (serpNid : CurrencyId) (mint : SerpPrim)
    (nativeC stableC : CurrencyId) (expandBy payByQuoted : Balance)
    (serpers : AccountId) (s : State) : Except Err State :=
  if expandBy = 0 ∨ stableC = nativeC then .ok s
  else
    let step : Except Err State :=
      if nativeC = serpNid then
        match mint nativeC stableC expandBy payByQuoted serpers s.backend with
        | .error e => .error e
        | .ok b => .ok { s with backend := b }
      else .ok s
    match step with
    | .error e => .error e
    | .ok s2 => .ok { s2 with events := s2.events ++ [.serpedUpSupply stableC expandBy] }

/-- Embeds `Pallet::contract_supply` (src lines 270–285): mirror image of
`expand_supply`, emitting `SerpedDownSupply`. -/
def contract_supply (serpNid : CurrencyId) (burn : SerpPrim)
    (nativeC stableC : CurrencyId) (contractBy payByQuoted : Balance)
    (serpers : AccountId) (s : State) : Except Err State :=
  if contractBy = 0 ∨ stableC = nativeC then .ok s
  else
    let step : Except Err State :=
      if nativeC = serpNid then
        match burn nativeC stableC contractBy payByQuoted serpers s.backend with
        | .error e => .error e
        | .ok b => .ok { s with backend := b }
      else .ok s
    match step with
    | .error e => .error e
    | .ok s2 => .ok { s2 with events := s2.events ++ [.serpedDownSupply stableC contractBy] }

/-! ## The Elastic Supply Stabilization arithmetic (`SerpTesAdapter`,
src lines 166–249)

`Balance` arithmetic is checked (spec §3: "all arithmetic checked, no
silent overflow/underflow"), so the unsigned subtraction
`fractioned - supply` and the division by `base_unit` are modelled as
fallible: `none` is a checked-arithmetic failure (a panic in the Rust
source). -/

/-- The action a stabilization step requests from settlement. -/
inductive SerpAction
  | noAction
  | expand (amount : Balance)
  | contract (amount : Balance)
deriving Repr, DecidableEq

/-- Outcome of a stabilization step: a checked-arithmetic failure, the
`ZeroPrice` error, or a completed decision. -/
inductive SerpOutcome
  | panicked
  | zeroPriceErr
  | done (act : SerpAction)
deriving Repr, DecidableEq

/-- Embeds `SerpTesAdapter::supply_change` (src lines 196–203):
`fraction = new_price * supply; fractioned = fraction / base_unit;
fractioned - supply` — with division by a zero base unit and underflow of
the unsigned subtraction surfacing as checked-arithmetic failures. -/
def supply_change (baseUnit newPrice supply : Balance) : Option Balance :=
  if baseUnit = 0 then none
  else
    let fraction := newPrice * supply
    let fractioned := fraction / baseUnit
    if fractioned < supply then none else some (fractioned - supply)

/-- Embeds `SerpTesAdapter::serp_elast` (src lines 226–248): `ZeroPrice` on a
zero quote; expand when the price is above the base unit, contract when
below, nothing at the peg.  The expanded/contracted amount is
`supply_change`; its checked-arithmetic failure propagates as a panic. -/
def serp_elast (baseUnit price supply : Balance) : SerpOutcome :=
  if price = 0 then .zeroPriceErr
  else if baseUnit < price then
    match supply_change baseUnit price supply with
    | none => .panicked
    | some e => .done (.expand e)
  else if price < baseUnit then
    match supply_change baseUnit price supply with
    | none => .panicked
    | some cb => .done (.contract cb)
  else .done .noAction

/-- Embeds `SerpTesAdapter::on_block_with_price` (src lines 206–214): run
`serp_elast` only when the block number is divisible by the adjustment
frequency (a zero frequency makes the `%` itself a checked-arithmetic
failure). -/
def on_block_with_price (freq tick baseUnit price supply : Balance) : SerpOutcome :=
  if freq = 0 then .panicked
  else if tick % freq = 0 then serp_elast baseUnit price supply
  else .done .noAction

/-! ## Account merge (`impl MergeAccount for Pallet`, src lines 789–802)

The backend's own `merge_account` primitive is external and passed as a
function parameter.  `merge_account_raw` is the body of the closure given
to `with_transaction_result`, applying each step's effects in order and
stopping at the first failure; `merge_account_tx` is the transactional
wrapper, which commits the new state only when every step succeeded and
otherwise restores the original state. -/

/-- The type of the external backend's `merge_account` primitive. -/
def MergePrim : Type :=
  (CurrencyId → Book) → Except Err (CurrencyId → Book)

/-- The sequential body of `merge_account` (src lines 792–799): backend
merge, then unreserve all of source's native reserved balance, then
transfer all of source's resulting native free balance to dest.  Returns
the state reached together with the first failure, if any. -/
def merge_account_raw (bm : MergePrim) (source dest : AccountId) (s : State) :
    State × Option Err :=
  match bm s.backend with
  | .error e => (s, some e)
  | .ok b2 =>
    let s2 : State := { s with backend := b2 }
    let (n3, _) := bkUnreserve source (bkReserved source s2.native) s2.native
    let s3 : State := { s2 with native := n3 }
    match bkTransfer source dest (bkFree source n3) n3 with
    | .error e => (s3, some e)
    | .ok n4 => ({ s3 with native := n4 }, none)

/-- Embeds `Pallet::merge_account` (src lines 790–801): the result of the
`with_transaction_result` wrapper — the first step failure, or the fully
merged state. -/
def merge_account (bm : MergePrim) (source dest : AccountId) (s : State) :
    Except Err State :=
  match merge_account_raw bm source dest s with
  | (_, some e) => .error e
  | (s2, none) => .ok s2

/-- The ledger state observable after `merge_account` returns:
`with_transaction_result` rolls every step back on failure, so the
original state survives an error. -/
def merge_account_tx (bm : MergePrim) (source dest : AccountId) (s : State) : State :=
  match merge_account_raw bm source dest s with
  | (_, some _) => s
  | (s2, none) => s2

/-! ## Concrete fixtures for witnesses -/

/-- The empty account. -/
def acc0 : Account := ⟨0, 0, []⟩

/-- The empty book. -/
def book0 : Book := { accounts := fun _ => acc0, issuance := 0 }

/-- The empty ledger. -/
def s0 : State := { native := book0, backend := fun _ => book0, events := [] }

/-- A sample account store: account 1 holds 10 free / 3 reserved, account
2 holds 7 free / 1 reserved. -/
def sampleAcc : AccountId → Account :=
  fun a => if a = 1 then ⟨10, 3, []⟩ else if a = 2 then ⟨7, 1, []⟩ else acc0

/-- A sample book over `sampleAcc`. -/
def book1 : Book := { accounts := sampleAcc, issuance := 21 }

/-- A sample ledger: `book1` natively and in every backend currency. -/
def s1 : State := { native := book1, backend := fun _ => book1, events := [] }

/-! ## C1 — `supply_change` -/

/-- C1 counterexample: the claim asserts
`supply_change(price, supply) = floor(price·supply/baseUnit) − supply` for
every price and supply, but at base unit 2, price 1, supply 1 the spec
formula evaluates to `floor(1/2) − 1 = −1` while the code's unsigned
subtraction `fractioned - supply` underflows, so the checked arithmetic
fails (`none`) instead of producing that value. -/
theorem supply_change_counterexample :
    supply_change 2 1 1 = none ∧ ((1 * 1 / 2 : Nat) : Int) - 1 < 0 := by decide

/-- C1 (amended): for a positive base unit and a price at or above it
(so that the unsigned subtraction cannot underflow),
`supply_change base price supply` succeeds with
`floor(price·supply/base) − supply` (a genuine integer subtraction, as the
cast identity shows); in particular `price = 2·base` yields the supply
itself and `price = base` yields zero. -/
theorem supply_change_spec (b p s : Balance) (hb : 0 < b) (hp : b ≤ p) :
    supply_change b p s = some (p * s / b - s)
    ∧ ((p * s / b - s : Nat) : Int) = ((p * s / b : Nat) : Int) - (s : Int)
    ∧ supply_change b (2 * b) s = some s
    ∧ supply_change b b s = some 0 := by
  have hs : s ≤ p * s / b := by
    rw [Nat.le_div_iff_mul_le hb, Nat.mul_comm]
    exact Nat.mul_le_mul_right s hp
  have h2 : 2 * b * s / b = 2 * s := by
    rw [show 2 * b * s = b * (2 * s) by ring, Nat.mul_div_cancel_left _ hb]
  have h1 : b * s / b = s := Nat.mul_div_cancel_left _ hb
  refine ⟨?_, Nat.cast_sub hs, ?_, ?_⟩
  · simp [supply_change, hb.ne', Nat.not_lt.mpr hs]
  · simp [supply_change, hb.ne', h2, Nat.not_lt.mpr (Nat.le_mul_of_pos_left s Nat.zero_lt_two),
      Nat.two_mul s]
  · simp [supply_change, hb.ne', h1]

/-- C1 witness: the amended statement at base unit 100, price 150,
supply 1000. -/
theorem supply_change_spec_witness :
    supply_change 100 150 1000 = some (150 * 1000 / 100 - 1000)
    ∧ ((150 * 1000 / 100 - 1000 : Nat) : Int) = ((150 * 1000 / 100 : Nat) : Int) - (1000 : Int)
    ∧ supply_change 100 (2 * 100) 1000 = some 1000
    ∧ supply_change 100 100 1000 = some 0 :=
  supply_change_spec 100 150 1000 (by decide) (by decide)

/-! ## C2 — the per-tick stabilization step -/

/-- C2: concrete evaluation of the per-tick step at adjustment frequency
10, base unit 100, supply 1000.  A tick off the frequency grid is a
no-op; at tick 10 a zero price fails with `ZeroPrice` and requests no
supply action; price 150 (above peg) requests expansion by
`supply_change = 500`; price at the peg does nothing.  But at price 50
(below peg) the step does *not* invoke contraction as the claim states:
the unsigned `supply_change` subtraction underflows
(`floor(50·1000/100) = 500 < 1000`), so the checked arithmetic fails —
the code slip behind the claim's `contract_supply` branch (whose comment
even asserts safety from underflow, and which passes the undefined
variable `expand_by`). -/
theorem on_block_with_price_eval :
    on_block_with_price 10 7 100 50 1000 = .done .noAction
    ∧ on_block_with_price 10 10 100 0 1000 = .zeroPriceErr
    ∧ on_block_with_price 10 10 100 150 1000 = .done (.expand 500)
    ∧ on_block_with_price 10 10 100 100 1000 = .done .noAction
    ∧ on_block_with_price 10 10 100 50 1000 = .panicked := by decide

/-! ## C8 — the Adapter's signed update -/

/-- C8: `Stp258AssetAdapter::update_balance` fails with
`AmountIntoBalanceFailed` whenever the delta's magnitude exceeds the
balance domain bound `bmax` (producing no new book, so the balance is
unchanged), and otherwise deposits the magnitude for a positive delta and
withdraws it for a non-positive one. -/
theorem a_update_balance_spec (bmax : Nat) (who : AccountId) (amt : Amount) (bk : Book) :
    (bmax < amt.natAbs → aUpdateBalance bmax who amt bk = .error .amountIntoBalanceFailed)
    ∧ (amt.natAbs ≤ bmax →
        aUpdateBalance bmax who amt bk =
          if 0 < amt then aDeposit who amt.natAbs bk else aWithdraw who amt.natAbs bk) := by
  constructor
  · intro h
    simp [aUpdateBalance, Nat.not_le.mpr h]
  · intro h
    simp [aUpdateBalance, h]

/-- C8 witness: with balance domain bound 10, a delta of −100 fails with
`AmountIntoBalanceFailed`, and a delta of 5 deposits its magnitude. -/
theorem a_update_balance_spec_witness :
    aUpdateBalance 10 0 (-100) book0 = .error .amountIntoBalanceFailed
    ∧ aUpdateBalance 10 0 5 book0 =
        (if (0 : Amount) < 5 then aDeposit 0 (Int.natAbs 5) book0
         else aWithdraw 0 (Int.natAbs 5) book0) :=
  ⟨(a_update_balance_spec 10 0 (-100) book0).1 (by decide),
   (a_update_balance_spec 10 0 5 book0).2 (by decide)⟩

/-! ## C9 — the Adapter's withdrawal feasibility check -/

/-- C9: `Stp258AssetAdapter::ensure_can_withdraw` fails with
`BalanceTooLow` exactly when the free balance is strictly below the
amount (the `checked_sub` underflow); it is a pure check (it produces no
state), and when the subtraction succeeds the remaining
existence-requirement check on the new balance is delegated to the
primitive. -/
theorem a_ensure_can_withdraw_spec (who : AccountId) (amount : Balance) (bk : Book) :
    (aEnsureCanWithdraw who amount bk = .error .balanceTooLow ↔ bkFree who bk < amount)
    ∧ (amount ≤ bkFree who bk →
        aEnsureCanWithdraw who amount bk =
          bkEnsureNewBalance who (bkFree who bk - amount) bk) := by
  constructor
  · constructor
    · intro h
      by_cases hlt : bkFree who bk < amount
      · exact hlt
      · rw [aEnsureCanWithdraw, if_neg hlt, bkEnsureNewBalance] at h
        split at h
        · exact Except.noConfusion h
        · injection h with h2
          exact Err.noConfusion h2
    · intro hlt
      rw [aEnsureCanWithdraw, if_pos hlt]
  · intro h
    rw [aEnsureCanWithdraw, if_neg (Nat.not_lt.mpr h)]

/-- C9 witness: on `book1` (account 1 holds 10 free), withdrawing 20
fails with `BalanceTooLow` and withdrawing 4 delegates to the
primitive's residual check. -/
theorem a_ensure_can_withdraw_spec_witness :
    (aEnsureCanWithdraw 1 20 book1 = .error .balanceTooLow ↔ bkFree 1 book1 < 20)
    ∧ aEnsureCanWithdraw 1 4 book1 = bkEnsureNewBalance 1 (bkFree 1 book1 - 4) book1 :=
  ⟨(a_ensure_can_withdraw_spec 1 20 book1).1,
   (a_ensure_can_withdraw_spec 1 4 book1).2 (by decide)⟩

/-! ## C10 — the Adapter's lock operations -/

/-- Whether an `Except` result is a success. -/
def exceptIsOk {α : Type} : Except Err α → Bool
  | .ok _ => true
  | .error _ => false

/-- C10: the Adapter's `set_lock`, `extend_lock` and `remove_lock` always
return success, for every lock identifier, account, amount (including
amounts exceeding the account's balance) and book. -/
theorem adapter_lock_ops_never_fail (lid : LockId) (who : AccountId) (amount : Balance)
    (bk : Book) :
    exceptIsOk (aSetLock lid who amount bk) = true
    ∧ exceptIsOk (aExtendLock lid who amount bk) = true
    ∧ exceptIsOk (aRemoveLock lid who bk) = true :=
  ⟨rfl, rfl, rfl⟩

/-! ## C3 — SerpMarket settlement -/

/-- C3: `expand_supply` (and `contract_supply` as its mirror) is a pure
no-op when the amount is zero or the stable id equals the native id; when
the caller's native id differs from the configured stabilization-native
id, the backend mint/burn primitive is never consulted (the result is the
same for every primitive and the backend store is untouched) yet the
`SerpedUpSupply`/`SerpedDownSupply` event is still emitted; when the ids
match, the primitive is applied to the backend store and the event is
emitted after its success, its failure propagating with no event. -/
theorem serp_market_spec (serpNid : CurrencyId) (mint burn : SerpPrim)
    (nativeC stableC : CurrencyId) (n payBy : Balance) (serpers : AccountId)
    (s : State) :
    ((n = 0 ∨ stableC = nativeC) →
      expand_supply serpNid mint nativeC stableC n payBy serpers s = .ok s
      ∧ contract_supply serpNid burn nativeC stableC n payBy serpers s = .ok s)
    ∧ (n ≠ 0 → stableC ≠ nativeC → nativeC ≠ serpNid →
      expand_supply serpNid mint nativeC stableC n payBy serpers s =
        .ok { s with events := s.events ++ [.serpedUpSupply stableC n] }
      ∧ contract_supply serpNid burn nativeC stableC n payBy serpers s =
        .ok { s with events := s.events ++ [.serpedDownSupply stableC n] })
    ∧ (n ≠ 0 → stableC ≠ nativeC → nativeC = serpNid →
      expand_supply serpNid mint nativeC stableC n payBy serpers s =
        (match mint nativeC stableC n payBy serpers s.backend with
         | .error e => .error e
         | .ok b =>
             .ok { s with backend := b,
                          events := s.events ++ [.serpedUpSupply stableC n] })
      ∧ contract_supply serpNid burn nativeC stableC n payBy serpers s =
        (match burn nativeC stableC n payBy serpers s.backend with
         | .error e => .error e
         | .ok b =>
             .ok { s with backend := b,
                          events := s.events ++ [.serpedDownSupply stableC n] })) := by
  refine ⟨fun h => ⟨?_, ?_⟩, fun hn hsn hns => ⟨?_, ?_⟩, fun hn hsn hns => ⟨?_, ?_⟩⟩
  · unfold expand_supply; rw [if_pos h]
  · unfold contract_supply; rw [if_pos h]
  · unfold expand_supply
    rw [if_neg (by simp [hn, hsn]), if_neg hns]
  · unfold contract_supply
    rw [if_neg (by simp [hn, hsn]), if_neg hns]
  · unfold expand_supply
    rw [if_neg (by simp [hn, hsn]), if_pos hns]
    cases mint nativeC stableC n payBy serpers s.backend <;> rfl
  · unfold contract_supply
    rw [if_neg (by simp [hn, hsn]), if_pos hns]
    cases burn nativeC stableC n payBy serpers s.backend <;> rfl

/-- A sample backend mint/burn primitive for the C3 witness: credits the
stable currency's book for the serpers account. -/
def serpPrimEx : SerpPrim :=
  fun _ stableC n _ serpers bk => .ok (updBk bk stableC (bkDeposit serpers n (bk stableC)))

/-- C3 witness: with stabilization-native id 0, a call under native id 5
skips the primitive but still emits the event, a call under native id 0
applies the primitive, and a zero-amount call is a no-op. -/
theorem serp_market_spec_witness :
    expand_supply 0 serpPrimEx 5 7 3 2 9 s1 =
      .ok { s1 with events := s1.events ++ [.serpedUpSupply 7 3] }
    ∧ contract_supply 0 serpPrimEx 5 7 3 2 9 s1 =
      .ok { s1 with events := s1.events ++ [.serpedDownSupply 7 3] }
    ∧ expand_supply 0 serpPrimEx 0 7 3 2 9 s1 =
        (match serpPrimEx 0 7 3 2 9 s1.backend with
         | .error e => .error e
         | .ok b => .ok { s1 with backend := b,
                                  events := s1.events ++ [.serpedUpSupply 7 3] })
    ∧ expand_supply 0 serpPrimEx 0 7 0 2 9 s1 = .ok s1 :=
  ⟨((serp_market_spec 0 serpPrimEx serpPrimEx 5 7 3 2 9 s1).2.1
      (by decide) (by decide) (by decide)).1,
   ((serp_market_spec 0 serpPrimEx serpPrimEx 5 7 3 2 9 s1).2.1
      (by decide) (by decide) (by decide)).2,
   ((serp_market_spec 0 serpPrimEx serpPrimEx 0 7 3 2 9 s1).2.2
      (by decide) (by decide) rfl).1,
   ((serp_market_spec 0 serpPrimEx serpPrimEx 0 7 0 2 9 s1).1 (Or.inl rfl)).1⟩

/-! ## C5 — zero-amount and self-targeted operations -/

/-- Replacing a backend book by the value it already holds changes
nothing. -/
theorem updBk_self (bk : CurrencyId → Book) (c : CurrencyId) : updBk bk c (bk c) = bk := by
  funext z
  unfold updBk
  by_cases h : z = c
  · rw [if_pos h, h]
  · rw [if_neg h]

/-- C5 counterexample: the claim says `update_balance` with amount 0
leaves the event log unchanged, but on the empty ledger (native id 0,
balance bound 10) a zero-delta `update_balance` for account 1 appends a
`BalanceUpdated` event — the code has no zero-amount filter on this
path. -/
theorem update_balance_zero_counterexample :
    (update_balance 0 10 0 1 0 s0).toOption.map State.events ≠ some s0.events
    ∧ (update_balance 0 10 0 1 0 s0).toOption.map State.events =
        some [Event.balanceUpdated 0 1 0] := by decide

/-- C5 (amended): `transfer`, `deposit` and `withdraw` with amount 0 and
self-targeted `transfer` are full no-ops: success, no state change, no
event.  `update_balance` with a zero delta and `transfer_native_currency`
with amount 0 leave all balances and issuance unchanged and succeed, but
each still appends its event (`BalanceUpdated` with delta 0, resp.
`Transferred` with amount 0). -/
theorem zero_amount_ops_spec (nid : CurrencyId) (bmax : Nat) (c : CurrencyId)
    (source dest who : AccountId) (n : Balance) (s : State) :
    transfer nid c source dest 0 s = .ok s
    ∧ transfer nid c who who n s = .ok s
    ∧ deposit nid c who 0 s = .ok s
    ∧ withdraw nid c who 0 s = .ok s
    ∧ update_balance nid bmax c who 0 s =
        .ok { s with events := s.events ++ [.balanceUpdated c who 0] }
    ∧ transfer_native_currency nid source dest 0 s =
        .ok { s with events := s.events ++ [.transferred nid source dest 0] } := by
  refine ⟨?_, ?_, ?_, ?_, ?_, ?_⟩
  · unfold transfer; rw [if_pos (Or.inl rfl)]
  · unfold transfer; rw [if_pos (Or.inr rfl)]
  · unfold deposit; rw [if_pos rfl]
  · unfold withdraw; rw [if_pos rfl]
  · by_cases hc : c = nid
    · simp [update_balance, hc, aUpdateBalance, aWithdraw, bkWithdraw, Nat.zero_le]
    · simp [update_balance, hc, bkUpdateBalance, bkWithdraw, Nat.zero_le, updBk_self]
  · simp [transfer_native_currency, aTransfer, bkTransfer]

/-! ## C7 — successful transfers -/

/-- A successful primitive/backend transfer with a nonzero amount between
distinct accounts debits the source's free balance, credits the
destination's, and preserves the book's issuance. -/
theorem bkTransfer_ok (source dest : AccountId) (n : Balance) (bk : Book)
    (hn : n ≠ 0) (hsd : source ≠ dest) :
    ∀ b2, bkTransfer source dest n bk = .ok b2 →
      bkFree source b2 + n = bkFree source bk
      ∧ bkFree dest b2 = bkFree dest bk + n
      ∧ b2.issuance = bk.issuance := by
  intro b2 h
  unfold bkTransfer at h
  rw [if_neg (by simp [hn, hsd])] at h
  dsimp only at h
  split at h
  case isTrue hcond =>
    injection h with h
    subst h
    refine ⟨?_, ?_, rfl⟩
    · have hfree := hcond.1
      simp [bkFree]
      exact Nat.sub_add_cancel hfree
    · simp [bkFree, Ne.symm hsd]
  case isFalse => exact Except.noConfusion h

/-- C7: a successful `transfer` of a nonzero amount between distinct
accounts decreases the source's free balance by the amount, increases the
destination's by the same amount, leaves the currency's total issuance
unchanged, and emits exactly one `Transferred` event carrying the
currency, both accounts and the amount; a failing routed transfer's error
propagates untranslated. -/
theorem transfer_spec (nid c : CurrencyId) (source dest : AccountId) (n : Balance)
    (s : State) (hn : n ≠ 0) (hsd : source ≠ dest) :
    (∀ s2, transfer nid c source dest n s = .ok s2 →
        free_balance nid c source s2 + n = free_balance nid c source s
        ∧ free_balance nid c dest s2 = free_balance nid c dest s + n
        ∧ total_issuance nid c s2 = total_issuance nid c s
        ∧ s2.events = s.events ++ [.transferred c source dest n])
    ∧ (∀ e, transfer nid c source dest n s = .error e →
        (if c = nid then aTransfer source dest n s.native
         else bkTransfer source dest n (s.backend c)) = .error e) := by
  have hcond : ¬ (n = 0 ∨ source = dest) := by simp [hn, hsd]
  by_cases hc : c = nid
  · constructor
    · intro s2 h
      unfold transfer at h
      rw [if_neg hcond, if_pos hc] at h
      cases hbt : aTransfer source dest n s.native with
      | error e => rw [hbt] at h; exact Except.noConfusion h
      | ok nb =>
        rw [hbt] at h
        injection h with h
        subst h
        obtain ⟨h1, h2, h3⟩ := bkTransfer_ok source dest n s.native hn hsd nb hbt
        exact ⟨by simp [free_balance, hc, h1], by simp [free_balance, hc, h2],
          by simp [total_issuance, hc, h3], rfl⟩
    · intro e h
      unfold transfer at h
      rw [if_neg hcond, if_pos hc] at h
      rw [if_pos hc]
      cases hbt : aTransfer source dest n s.native with
      | error e2 => rw [hbt] at h; injection h with h; rw [h]
      | ok nb => rw [hbt] at h; exact Except.noConfusion h
  · constructor
    · intro s2 h
      unfold transfer at h
      rw [if_neg hcond, if_neg hc] at h
      cases hbt : bkTransfer source dest n (s.backend c) with
      | error e => rw [hbt] at h; exact Except.noConfusion h
      | ok book =>
        rw [hbt] at h
        injection h with h
        subst h
        obtain ⟨h1, h2, h3⟩ := bkTransfer_ok source dest n (s.backend c) hn hsd book hbt
        refine ⟨?_, ?_, ?_, rfl⟩

        · simpa [free_balance, hc, updBk] using h1
        · simpa [free_balance, hc, updBk] using h2
        · simpa [total_issuance, hc, updBk] using h3
    · intro e h
      unfold transfer at h
      rw [if_neg hcond, if_neg hc] at h
      rw [if_neg hc]
      cases hbt : bkTransfer source dest n (s.backend c) with
      | error e2 => rw [hbt] at h; injection h with h; rw [h]
      | ok book => rw [hbt] at h; exact Except.noConfusion h

/-! ## C6 — native/backend routing isolation -/

/-- Replace the backend store of a ledger state. -/
def setBackend (s : State) (bk : CurrencyId → Book) : State := { s with backend := bk }

/-- Replace the native book of a ledger state. -/
def setNative (s : State) (nb : Book) : State := { s with native := nb }

/-- C6: every ledger operation routes on equality of the currency id with
the configured native id, and the two routes are isolated.  An operation
on the native id commutes with replacing the backend store (so it neither
reads nor writes any backend book), and — whenever the currency id
differs from the native id — the operation commutes with replacing the
native book (so it neither reads nor writes the Adapter-backed store);
this holds uniformly for the balance reads, transfer, deposit, withdraw,
slash, the signed update, the lock operations and the reserve
operations. -/
theorem routing_isolation (nid c : CurrencyId) (bmax : Nat) (lid : LockId)
    (x y who slashed ben : AccountId) (n v : Balance) (amt : Amount) (st : Bstatus)
    (s : State) (bk : CurrencyId → Book) (nb : Book) :
    (free_balance nid nid who (setBackend s bk) = free_balance nid nid who s
     ∧ total_balance nid nid who (setBackend s bk) = total_balance nid nid who s
     ∧ total_issuance nid nid (setBackend s bk) = total_issuance nid nid s
     ∧ reserved_balance nid nid who (setBackend s bk) = reserved_balance nid nid who s
     ∧ can_slash nid nid who n (setBackend s bk) = can_slash nid nid who n s
     ∧ can_reserve nid nid who v (setBackend s bk) = can_reserve nid nid who v s
     ∧ ensure_can_withdraw nid nid who n (setBackend s bk) =
         ensure_can_withdraw nid nid who n s
     ∧ transfer nid nid x y n (setBackend s bk) =
         (transfer nid nid x y n s).map (fun t => setBackend t bk)
     ∧ deposit nid nid who n (setBackend s bk) =
         (deposit nid nid who n s).map (fun t => setBackend t bk)
     ∧ withdraw nid nid who n (setBackend s bk) =
         (withdraw nid nid who n s).map (fun t => setBackend t bk)
     ∧ slash nid nid who n (setBackend s bk) =
         (setBackend (slash nid nid who n s).1 bk, (slash nid nid who n s).2)
     ∧ update_balance nid bmax nid who amt (setBackend s bk) =
         (update_balance nid bmax nid who amt s).map (fun t => setBackend t bk)
     ∧ set_lock nid lid nid who n (setBackend s bk) =
         (set_lock nid lid nid who n s).map (fun t => setBackend t bk)
     ∧ extend_lock nid lid nid who n (setBackend s bk) =
         (extend_lock nid lid nid who n s).map (fun t => setBackend t bk)
     ∧ remove_lock nid lid nid who (setBackend s bk) =
         (remove_lock nid lid nid who s).map (fun t => setBackend t bk)
     ∧ reserve nid nid who v (setBackend s bk) =
         (reserve nid nid who v s).map (fun t => setBackend t bk)
     ∧ unreserve nid nid who v (setBackend s bk) =
         (setBackend (unreserve nid nid who v s).1 bk, (unreserve nid nid who v s).2)
     ∧ slash_reserved nid nid who v (setBackend s bk) =
         (setBackend (slash_reserved nid nid who v s).1 bk,
          (slash_reserved nid nid who v s).2)
     ∧ repatriate_reserved nid nid slashed ben v st (setBackend s bk) =
         (repatriate_reserved nid nid slashed ben v st s).map
           (fun p => (setBackend p.1 bk, p.2)))
    ∧ (c ≠ nid →
      (free_balance nid c who (setNative s nb) = free_balance nid c who s
       ∧ total_balance nid c who (setNative s nb) = total_balance nid c who s
       ∧ total_issuance nid c (setNative s nb) = total_issuance nid c s
       ∧ reserved_balance nid c who (setNative s nb) = reserved_balance nid c who s
       ∧ can_slash nid c who n (setNative s nb) = can_slash nid c who n s
       ∧ can_reserve nid c who v (setNative s nb) = can_reserve nid c who v s
       ∧ ensure_can_withdraw nid c who n (setNative s nb) =
           ensure_can_withdraw nid c who n s
       ∧ transfer nid c x y n (setNative s nb) =
           (transfer nid c x y n s).map (fun t => setNative t nb)
       ∧ deposit nid c who n (setNative s nb) =
           (deposit nid c who n s).map (fun t => setNative t nb)
       ∧ withdraw nid c who n (setNative s nb) =
           (withdraw nid c who n s).map (fun t => setNative t nb)
       ∧ slash nid c who n (setNative s nb) =
           (setNative (slash nid c who n s).1 nb, (slash nid c who n s).2)
       ∧ update_balance nid bmax c who amt (setNative s nb) =
           (update_balance nid bmax c who amt s).map (fun t => setNative t nb)
       ∧ set_lock nid lid c who n (setNative s nb) =
           (set_lock nid lid c who n s).map (fun t => setNative t nb)
       ∧ extend_lock nid lid c who n (setNative s nb) =
           (extend_lock nid lid c who n s).map (fun t => setNative t nb)
       ∧ remove_lock nid lid c who (setNative s nb) =
           (remove_lock nid lid c who s).map (fun t => setNative t nb)
       ∧ reserve nid c who v (setNative s nb) =
           (reserve nid c who v s).map (fun t => setNative t nb)
       ∧ unreserve nid c who v (setNative s nb) =
           (setNative (unreserve nid c who v s).1 nb, (unreserve nid c who v s).2)
       ∧ slash_reserved nid c who v (setNative s nb) =
           (setNative (slash_reserved nid c who v s).1 nb,
            (slash_reserved nid c who v s).2)
       ∧ repatriate_reserved nid c slashed ben v st (setNative s nb) =
           (repatriate_reserved nid c slashed ben v st s).map
             (fun p => (setNative p.1 nb, p.2)))) := by
  refine ⟨⟨?_, ?_, ?_, ?_, ?_, ?_, ?_, ?_, ?_, ?_, ?_, ?_, ?_, ?_, ?_, ?_, ?_, ?_, ?_⟩,
    fun h => ⟨?_, ?_, ?_, ?_, ?_, ?_, ?_, ?_, ?_, ?_, ?_, ?_, ?_, ?_, ?_, ?_, ?_, ?_, ?_⟩⟩
  · simp [free_balance, setBackend]
  · simp [total_balance, setBackend]
  · simp [total_issuance, setBackend]
  · simp [reserved_balance, setBackend]
  · simp [can_slash, setBackend]
  · simp [can_reserve, setBackend]
  · simp [ensure_can_withdraw, setBackend]
  · unfold transfer setBackend
    by_cases h0 : n = 0 ∨ x = y
    · rw [if_pos h0, if_pos h0]; rfl
    · rw [if_neg h0, if_neg h0, if_pos rfl, if_pos rfl]
      dsimp only
      cases aTransfer x y n s.native <;> rfl
  · unfold deposit setBackend
    by_cases h0 : n = 0
    · rw [if_pos h0, if_pos h0]; rfl
    · rw [if_neg h0, if_neg h0, if_pos rfl, if_pos rfl]
      dsimp only
      cases aDeposit who n s.native <;> rfl
  · unfold withdraw setBackend
    by_cases h0 : n = 0
    · rw [if_pos h0, if_pos h0]; rfl
    · rw [if_neg h0, if_neg h0, if_pos rfl, if_pos rfl]
      dsimp only
      cases aWithdraw who n s.native <;> rfl
  · unfold slash setBackend
    rw [if_pos rfl, if_pos rfl]
  · unfold update_balance setBackend
    rw [if_pos rfl, if_pos rfl]
    dsimp only
    cases aUpdateBalance bmax who amt s.native <;> rfl
  · unfold set_lock setBackend
    rw [if_pos rfl, if_pos rfl]
    dsimp only
    cases aSetLock lid who n s.native <;> rfl
  · unfold extend_lock setBackend
    rw [if_pos rfl, if_pos rfl]
    dsimp only
    cases aExtendLock lid who n s.native <;> rfl
  · unfold remove_lock setBackend
    rw [if_pos rfl, if_pos rfl]
    dsimp only
    cases aRemoveLock lid who s.native <;> rfl
  · unfold reserve setBackend
    rw [if_pos rfl, if_pos rfl]
    dsimp only
    cases bkReserve who v s.native <;> rfl
  · unfold unreserve setBackend
    rw [if_pos rfl, if_pos rfl]
  · unfold slash_reserved setBackend
    rw [if_pos rfl, if_pos rfl]
  · unfold repatriate_reserved setBackend
    rw [if_pos rfl, if_pos rfl]
    dsimp only
    cases bkRepatriate slashed ben v st s.native with
    | error e => rfl
    | ok p => cases p; rfl
  · simp [free_balance, setNative, h]
  · simp [total_balance, setNative, h]
  · simp [total_issuance, setNative, h]
  · simp [reserved_balance, setNative, h]
  · simp [can_slash, setNative, h]
  · simp [can_reserve, setNative, h]
  · simp [ensure_can_withdraw, setNative, h]
  · unfold transfer setNative
    by_cases h0 : n = 0 ∨ x = y
    · rw [if_pos h0, if_pos h0]; rfl
    · rw [if_neg h0, if_neg h0, if_neg h, if_neg h]
      dsimp only
      cases bkTransfer x y n (s.backend c) <;> rfl
  · unfold deposit setNative
    by_cases h0 : n = 0
    · rw [if_pos h0, if_pos h0]; rfl
    · rw [if_neg h0, if_neg h0, if_neg h, if_neg h]; rfl
  · unfold withdraw setNative
    by_cases h0 : n = 0
    · rw [if_pos h0, if_pos h0]; rfl
    · rw [if_neg h0, if_neg h0, if_neg h, if_neg h]
      dsimp only
      cases bkWithdraw who n (s.backend c) <;> rfl
  · unfold slash setNative
    rw [if_neg h, if_neg h]
  · unfold update_balance setNative
    rw [if_neg h, if_neg h]
    dsimp only
    cases bkUpdateBalance bmax who amt (s.backend c) <;> rfl
  · unfold set_lock setNative
    rw [if_neg h, if_neg h]; rfl
  · unfold extend_lock setNative
    rw [if_neg h, if_neg h]; rfl
  · unfold remove_lock setNative
    rw [if_neg h, if_neg h]; rfl
  · unfold reserve setNative
    rw [if_neg h, if_neg h]
    dsimp only
    cases bkReserve who v (s.backend c) <;> rfl
  · unfold unreserve setNative
    rw [if_neg h, if_neg h]
  · unfold slash_reserved setNative
    rw [if_neg h, if_neg h]
  · unfold repatriate_reserved setNative
    rw [if_neg h, if_neg h]
    dsimp only
    cases bkRepatriate slashed ben v st (s.backend c) with
    | error e => rfl
    | ok p => cases p; rfl

/-- C6 witness: on the concrete ledger `s1` with native id 0, a native
transfer ignores and preserves a replaced backend store, and a transfer
in currency 3 ignores and preserves a replaced native book. -/
theorem routing_isolation_witness :
    transfer 0 0 1 2 5 (setBackend s1 fun _ => book0) =
      (transfer 0 0 1 2 5 s1).map (fun t => setBackend t fun _ => book0)
    ∧ (3 : CurrencyId) ≠ 0
    ∧ transfer 0 3 1 2 5 (setNative s1 book0) =
        (transfer 0 3 1 2 5 s1).map (fun t => setNative t book0) :=
  ⟨(routing_isolation 0 3 10 1 1 2 1 1 2 5 2 4 .free s1 (fun _ => book0)
      book0).1.2.2.2.2.2.2.2.1,
   by decide,
   ((routing_isolation 0 3 10 1 1 2 1 1 2 5 2 4 .free s1 (fun _ => book0)
      book0).2 (by decide)).2.2.2.2.2.2.2.1⟩

/-- The post-state of a concrete successful native transfer of 5 from
account 1 to account 2 on `s1`. -/
def transferRes : State := (transfer 0 0 1 2 5 s1).toOption.getD s1

/-- C7 witness: the concrete transfer of 5 from account 1 (free 10) to
account 2 (free 7) under the native id. -/
theorem transfer_spec_witness :
    free_balance 0 0 1 transferRes + 5 = free_balance 0 0 1 s1
    ∧ free_balance 0 0 2 transferRes = free_balance 0 0 2 s1 + 5
    ∧ total_issuance 0 0 transferRes = total_issuance 0 0 s1
    ∧ transferRes.events = s1.events ++ [.transferred 0 1 2 5] :=
  (transfer_spec 0 0 1 2 5 s1 (by decide) (by decide)).1 transferRes rfl

/-! ## C4 — atomic account merge -/

/-- What a successful external backend `merge_account` does, modelled
from the spec (§4.5 step 1, §8): in every backend currency the source's
free and reserved balances (and its effectively locked balance) drop to
zero and the destination's free balance grows by their prior sum, its
reserved balance untouched. -/
def MergesInto (source dest : AccountId) (b b2 : CurrencyId → Book) : Prop :=
  ∀ c, ((b2 c).accounts source).free = 0
    ∧ ((b2 c).accounts source).reserved = 0
    ∧ lockedBalance ((b2 c).accounts source) = 0
    ∧ ((b2 c).accounts dest).free =
        ((b c).accounts dest).free
          + (((b c).accounts source).free + ((b c).accounts source).reserved)
    ∧ ((b2 c).accounts dest).reserved = ((b c).accounts dest).reserved

/-- Unreserving an account's entire reserved balance moves it into the
free balance, zeroes the reserved balance, and touches nothing else. -/
theorem bkUnreserve_all (who : AccountId) (bk : Book) :
    (bkUnreserve who (bkReserved who bk) bk).1.accounts who =
        ⟨(bk.accounts who).free + (bk.accounts who).reserved, 0, (bk.accounts who).locks⟩
    ∧ (∀ a, a ≠ who → (bkUnreserve who (bkReserved who bk) bk).1.accounts a = bk.accounts a)
    ∧ (bkUnreserve who (bkReserved who bk) bk).1.issuance = bk.issuance := by
  unfold bkUnreserve bkReserved
  dsimp only
  rw [Nat.min_self]
  refine ⟨?_, ?_, rfl⟩
  · unfold updAcc
    rw [if_pos rfl]
    simp [Nat.sub_self]
  · intro a ha
    unfold updAcc
    rw [if_neg ha]

/-- A successful transfer of an account's entire free balance drains the
source's free balance to zero and credits the destination with it,
leaving reserved balances, locks, issuance and third accounts alone. -/
theorem bkTransfer_all (source dest : AccountId) (bk : Book) (hsd : source ≠ dest) :
    ∀ b2, bkTransfer source dest (bkFree source bk) bk = .ok b2 →
      (b2.accounts source).free = 0
      ∧ (b2.accounts source).reserved = (bk.accounts source).reserved
      ∧ (b2.accounts source).locks = (bk.accounts source).locks
      ∧ (b2.accounts dest).free = (bk.accounts dest).free + (bk.accounts source).free
      ∧ (b2.accounts dest).reserved = (bk.accounts dest).reserved
      ∧ (b2.accounts dest).locks = (bk.accounts dest).locks
      ∧ b2.issuance = bk.issuance
      ∧ (∀ a, a ≠ source → a ≠ dest → b2.accounts a = bk.accounts a) := by
  intro b2 h
  unfold bkTransfer bkFree at h
  by_cases h0 : (bk.accounts source).free = 0 ∨ source = dest
  · rw [if_pos h0] at h
    injection h with h
    subst h
    have hf : (bk.accounts source).free = 0 := h0.resolve_right hsd
    exact ⟨hf, rfl, rfl, by rw [hf, Nat.add_zero], rfl, rfl, rfl, fun a _ _ => rfl⟩
  · rw [if_neg h0] at h
    dsimp only at h
    split at h
    next hcond =>
      injection h with h
      subst h
      refine ⟨?_, ?_, ?_, ?_, ?_, ?_, rfl, ?_⟩
      · dsimp only
        rw [if_pos rfl]
        exact Nat.sub_self _
      · dsimp only
        rw [if_pos rfl]
      · dsimp only
        rw [if_pos rfl]
      · dsimp only
        rw [if_neg (Ne.symm hsd), if_pos rfl]
      · dsimp only
        rw [if_neg (Ne.symm hsd), if_pos rfl]
      · dsimp only
        rw [if_neg (Ne.symm hsd), if_pos rfl]
      · intro a ha hd
        dsimp only
        rw [if_neg ha, if_neg hd]
    next => exact Except.noConfusion h

/-- C4: `merge_account(source, dest)` is all-or-nothing.  On any step
failure the transactional wrapper restores the pre-call state exactly
(full rollback).  On success the source's native free, reserved and
effectively locked balances are zero and the destination's native free
balance holds the prior sum of the source's free and reserved balances
(its own reserved balance and locks untouched, native issuance and third
accounts unchanged, no event emitted), and — given that the external
backend merge primitive consolidates as the spec describes — the same
holds in every backend currency. -/
theorem merge_account_spec (bm : MergePrim) (source dest : AccountId) (s : State)
    (hsd : source ≠ dest)
    (hbm : ∀ b2, bm s.backend = .ok b2 → MergesInto source dest s.backend b2) :
    (∀ e, merge_account bm source dest s = .error e →
        merge_account_tx bm source dest s = s)
    ∧ (∀ s2, merge_account bm source dest s = .ok s2 →
        merge_account_tx bm source dest s = s2
        ∧ s2.events = s.events
        ∧ (s2.native.accounts source).free = 0
        ∧ (s2.native.accounts source).reserved = 0
        ∧ lockedBalance (s2.native.accounts source) = 0
        ∧ (s2.native.accounts dest).free =
            (s.native.accounts dest).free
              + ((s.native.accounts source).free + (s.native.accounts source).reserved)
        ∧ (s2.native.accounts dest).reserved = (s.native.accounts dest).reserved
        ∧ (s2.native.accounts dest).locks = (s.native.accounts dest).locks
        ∧ s2.native.issuance = s.native.issuance
        ∧ (∀ a, a ≠ source → a ≠ dest → s2.native.accounts a = s.native.accounts a)
        ∧ MergesInto source dest s.backend s2.backend) := by
  cases hb : bm s.backend with
  | error e0 =>
    constructor
    · intro e h
      unfold merge_account_tx merge_account_raw
      rw [hb]
    · intro s2 h
      unfold merge_account merge_account_raw at h
      rw [hb] at h
      exact Except.noConfusion h
  | ok b2 =>
    have hmi := hbm b2 hb
    obtain ⟨hsrc, hoth, hiss⟩ :=
      bkUnreserve_all source s.native
    set n3 := (bkUnreserve source (bkReserved source s.native) s.native).1 with hn3
    have hraw : merge_account_raw bm source dest s =
        (match bkTransfer source dest (bkFree source n3) n3 with
         | .error e => ({ s with backend := b2, native := n3 }, some e)
         | .ok n4 => ({ s with backend := b2, native := n4 }, none)) := by
      unfold merge_account_raw
      rw [hb]
    cases htr : bkTransfer source dest (bkFree source n3) n3 with
    | error e1 =>
      have ht : merge_account_tx bm source dest s = s := by
        unfold merge_account_tx
        rw [hraw, htr]
      constructor
      · intro e h
        exact ht
      · intro s2 h
        unfold merge_account at h
        rw [hraw, htr] at h
        exact Except.noConfusion h
    | ok n4 =>
      have hm : merge_account bm source dest s =
          .ok { s with backend := b2, native := n4 } := by
        unfold merge_account
        rw [hraw, htr]
      constructor
      · intro e h
        rw [hm] at h
        exact Except.noConfusion h
      · intro s2 h
        rw [hm] at h
        injection h with h
        subst h
        obtain ⟨t1, t2, t3, t4, t5, t6, t7, t8⟩ :=
          bkTransfer_all source dest n3 hsd n4 htr
        have hlock : lockedBalance (n4.accounts source) = 0 := by
          unfold lockedBalance
          rw [t1, Nat.min_zero]
        refine ⟨?_, rfl, t1, ?_, hlock, ?_, ?_, ?_, ?_, ?_, hmi⟩
        · unfold merge_account_tx
          rw [hraw, htr]
        · rw [t2, hsrc]
        · rw [t4, hoth dest (Ne.symm hsd), hsrc]
        · rw [t5, hoth dest (Ne.symm hsd)]
        · rw [t6, hoth dest (Ne.symm hsd)]
        · rw [t7, hiss]
        · intro a ha hd
          rw [t8 a ha hd, hoth a ha]

/-- Modelled from the spec: a concrete backend merge primitive for the C4
witness — consolidates every backend currency's source holdings into the
destination and always succeeds. -/
def specBackendMerge (source dest : AccountId) : MergePrim :=
  fun b => .ok (fun c =>
    { accounts := fun a =>
        if a = source then ⟨0, 0, []⟩
        else if a = dest then
          ⟨((b c).accounts dest).free
             + (((b c).accounts source).free + ((b c).accounts source).reserved),
           ((b c).accounts dest).reserved, ((b c).accounts dest).locks⟩
        else (b c).accounts a,
      issuance := (b c).issuance })

/-- The post-state of the concrete merge of account 1 into account 2 on
`s1`. -/
def mergeRes : State :=
  (merge_account (specBackendMerge 1 2) 1 2 s1).toOption.getD s1

/-- C4 witness: merging account 1 (native 10 free / 3 reserved, backend 10
free / 3 reserved per currency) into account 2 on `s1` drains account 1
and credits account 2 with the prior sums. -/
theorem merge_account_spec_witness :
    (1 : AccountId) ≠ 2
    ∧ (mergeRes.native.accounts 1).free = 0
    ∧ (mergeRes.native.accounts 1).reserved = 0
    ∧ lockedBalance (mergeRes.native.accounts 1) = 0
    ∧ (mergeRes.native.accounts 2).free =
        (s1.native.accounts 2).free
          + ((s1.native.accounts 1).free + (s1.native.accounts 1).reserved)
    ∧ MergesInto 1 2 s1.backend mergeRes.backend := by
  have hbmw : ∀ b2, specBackendMerge 1 2 s1.backend = .ok b2 →
      MergesInto 1 2 s1.backend b2 := by
    intro b2 h
    injection h with h
    subst h
    intro c
    exact ⟨rfl, rfl, rfl, rfl, rfl⟩
  have H := (merge_account_spec (specBackendMerge 1 2) 1 2 s1 (by decide) hbmw).2
    mergeRes rfl
  exact ⟨by decide, H.2.2.1, H.2.2.2.1, H.2.2.2.2.1, H.2.2.2.2.2.1,
    H.2.2.2.2.2.2.2.2.2.2⟩

end Stp258
